import Mathlib

/-!
Shallow embedding of the PDF Standard Security Handler of this repository
(the PostScript procedures `pdf_process_Encrypt`, `pdf_compute_encryption_key`,
`pdf_xorbytes`, `pdf_gen_user_password_R3`, `pdf_check_pre_r5_user_password`,
`pdf_check_r5_password`, `computeobjkey` and `pdf_run_resolve`).

Byte strings are `List Nat` with every element a byte value 0..255.  The
hash/cipher primitives (MD5, SHA-256, RC4, AES) are consumed by the handler as
capability interfaces, so the embedded functions take them as function
parameters; a concrete RC4 is also implemented below for closed evaluations.
-/

namespace PdfSec

/-- Decidable equality of `Except` results, so that closed runs of the
embedded functions can be settled by `decide`. -/
instance {ε α : Type} [DecidableEq ε] [DecidableEq α] : DecidableEq (Except ε α) := fun x y =>
  match x, y with
  | Except.ok a, Except.ok b =>
    if h : a = b then Decidable.isTrue (by subst h; rfl)
    else Decidable.isFalse (fun hc => h (Except.ok.inj hc))
  | Except.error a, Except.error b =>
    if h : a = b then Decidable.isTrue (by subst h; rfl)
    else Decidable.isFalse (fun hc => h (Except.error.inj hc))
  | Except.ok _, Except.error _ => Decidable.isFalse (fun hc => Except.noConfusion hc)
  | Except.error _, Except.ok _ => Decidable.isFalse (fun hc => Except.noConfusion hc)

/-! ### Security-policy decision: the password-requirement test of
`pdf_process_Encrypt` -/

/-- Value found under /AuthEvent in the StdCF dictionary: a name, or a value
of some other PostScript type (which the code rejects). -/
inductive AEVal where
  | name (s : String)
  | nonName
  deriving DecidableEq, Repr

/-- Value found under /StdCF in the CF dictionary. -/
inductive StdCFVal where
  | dict (authEvent : Option AEVal)
  | nonDict
  deriving DecidableEq, Repr

/-- Value found under /CF in the Encrypt dictionary. -/
inductive CFVal where
  | dict (stdCF : Option StdCFVal)
  | nonDict
  deriving DecidableEq, Repr

/-- The part of the Encrypt dictionary read by the password-requirement test
of `pdf_process_Encrypt` (filter name, V, StmF, StrF, CF/StdCF/AuthEvent). -/
structure EncPol where
  filterName : String
  V : Int
  StmF : Option String
  StrF : Option String
  CF : Option CFVal
  deriving DecidableEq, Repr

/-- The password-requirement test inlined in `pdf_process_Encrypt`:
`Except.ok b` means the test finished with "password required" = `b`;
`Except.error` models the `/invalidfileaccess signalerror` branches taken on
wrongly-typed /CF, /StdCF or /AuthEvent entries.  Traced from the source:
for V >= 4 the code computes `(StmF present and not /Identity) or
(StrF present and not /Identity)`, then ors in `AuthEvent == /DocOpen` when
CF/StdCF/AuthEvent are all present; when /CF, /StdCF or /AuthEvent is absent
it discards that intermediate result and requires a password. -/
def isRequired (E : EncPol) : Except String Bool :=
  if 4 ≤ E.V then
    let b1 := match E.StmF with
      | some n => n != "Identity"
      | none => false
    let b2 := match E.StrF with
      | some n => n != "Identity"
      | none => false
    let b12 := b1 || b2
    match E.CF with
    | some (CFVal.dict stdCFOpt) =>
      match stdCFOpt with
      | some (StdCFVal.dict aeOpt) =>
        match aeOpt with
        | some (AEVal.name n) => Except.ok (b12 || (n == "DocOpen"))
        | some AEVal.nonName => Except.error "AuthEvent has wrong type"
        | none => Except.ok true
      | some StdCFVal.nonDict => Except.error "StdCF has wrong type"
      | none => Except.ok true
    | some CFVal.nonDict => Except.error "CF has wrong type"
    | none => Except.ok true
  else
    Except.ok true

/-- The /AuthEvent name reachable through /CF -> /StdCF, when every step is
present and well-typed. -/
def authEventName (E : EncPol) : Option String :=
  match E.CF with
  | some (CFVal.dict (some (StdCFVal.dict (some (AEVal.name n))))) => some n
  | _ => none

/-! ### A concrete RC4 (arcfour), used for closed evaluations of the embedded
password checks.  `rc4 key data` decrypts (= encrypts) `data` under `key`.
The 256-byte cipher state is encoded little-endian base 256 in a single
natural number so that closed evaluations stay cheap. -/

/-- Byte `i` of a base-256-encoded state. -/
def nGet (s i : Nat) : Nat := s / 256 ^ i % 256

/-- Replace byte `i` of a base-256-encoded state by `v`. -/
def nSet (s i v : Nat) : Nat := s - nGet s i * 256 ^ i + v * 256 ^ i

/-- Swap bytes `i` and `j` of the cipher state. -/
def rc4swap (s i j : Nat) : Nat := nSet (nSet s i (nGet s j)) j (nGet s i)

/-- The identity permutation [0, 1, ..., 255] as an encoded state. -/
def rc4perm0 : Nat := (List.range 256).foldl (fun s i => nSet s i i) 0

/-- RC4 key schedule: permute [0..255] under the key. -/
def rc4init (key : List Nat) : Nat :=
  ((List.range 256).foldl
    (fun sj i =>
      let j := (sj.2 + nGet sj.1 i + key.getD (i % key.length) 0) % 256
      (rc4swap sj.1 i j, j))
    (rc4perm0, 0)).1

/-- RC4 keystream generation xored onto the data. -/
def rc4prga : Nat → Nat → Nat → List Nat → List Nat
  | _, _, _, [] => []
  | S, i, j, b :: rest =>
    let i2 := (i + 1) % 256
    let j2 := (j + nGet S i2) % 256
    let S2 := rc4swap S i2 j2
    let k := nGet S2 ((nGet S2 i2 + nGet S2 j2) % 256)
    (b ^^^ k) :: rc4prga S2 i2 j2 rest

/-- Full RC4: decrypt `data` under `key`. -/
def rc4 (key data : List Nat) : List Nat :=
  rc4prga (rc4init key) 0 0 data

/-! ### Key Derivation Engine: `pdf_compute_encryption_key` (Algorithm 3.2)
and its helpers `pdf_pad_key`, `pdf_key_length`, `md5_trunk`. -/

/-- The fixed 32-byte Adobe padding constant `pdf_padding_string`. -/
def pdf_padding_string : List Nat :=
  [0x28, 0xbf, 0x4e, 0x5e, 0x4e, 0x75, 0x8a, 0x41,
   0x64, 0x00, 0x4e, 0x56, 0xff, 0xfa, 0x01, 0x08,
   0x2e, 0x2e, 0x00, 0xb6, 0xd0, 0x68, 0x3e, 0x80,
   0x2f, 0x0c, 0xa9, 0xfe, 0x64, 0x53, 0x69, 0x7a]

/-- `pdf_pad_key`: truncate the password to 32 bytes if longer, then append
the prefix of the padding constant that fills it up to 32 bytes. -/
def pdf_pad_key (pw : List Nat) : List Nat :=
  let k := if 32 < pw.length then pw.take 32 else pw
  k ++ pdf_padding_string.take (32 - k.length)

/-- Byte `j` of a PostScript integer: arithmetic right shift by `8*j`
(PostScript `bitshift` with a negative shift) followed by `255 and`
(bitwise and on the two's complement, i.e. a nonnegative remainder mod 256). -/
def psIntByte (p : Int) (j : Nat) : Nat :=
  ((Int.fdiv p (2 ^ (8 * j))) % 256).toNat

/-- The 4 little-endian bytes of /P built byte by byte in
`pdf_compute_encryption_key` (step 4). -/
def pBytes (p : Int) : List Nat :=
  [psIntByte p 0, psIntByte p 1, psIntByte p 2, psIntByte p 3]

/-- Diagnostics emitted while processing (the `pdfformatwarning` and
`pdfformaterror` reporting procedures, both of which print and continue). -/
inductive Diag where
  | formatWarning (msg : String)
  | formatError (msg : String)
  deriving DecidableEq, Repr

/-- The /ID lookup of `pdf_compute_encryption_key` step 5: the first element
of the trailer /ID array, or — when /ID is absent — the empty string together
with two `pdfformaterror` diagnostics (no error is signalled). -/
def pdf_id0 (ID : Option (List Nat)) : List Nat × List Diag :=
  match ID with
  | some s => (s, [])
  | none =>
    ([], [Diag.formatError "   **** Error: ID key in the trailer is required for encrypted files.\n",
          Diag.formatError "               File may not be possible to decrypt.\n"])

/-- The part of the Encrypt dictionary read by the key-derivation engine and
the pre-R5 password checks. -/
structure EncKD where
  R : Int
  V : Option Int
  Length : Option Int
  O : List Nat
  U : List Nat
  P : Int
  EncryptMetadata : Option Bool
  deriving DecidableEq, Repr

/-- `pdf_key_length`: 5 bytes when V = 1 (V defaults to 0 when absent),
otherwise /Length arithmetically shifted right by 3 (default 5 bytes). -/
def pdf_key_length (E : EncKD) : Nat :=
  if E.V.getD 0 = 1 then 5
  else match E.Length with
    | some L => (Int.fdiv L 8).toNat
    | none => 5

/-- `md5_trunk`: MD5 followed by truncation to the key length. -/
def md5_trunk (md5 : List Nat → List Nat) (klen : Nat) (s : List Nat) : List Nat :=
  (md5 s).take klen

/-- The buffer handed to the first `md5_trunk` of `pdf_compute_encryption_key`:
padded password ++ /O ++ /P as 4 little-endian bytes ++ id0, with the four
0xFF bytes appended in the `R >= 3` branch only when additionally `R >= 4`
and /EncryptMetadata (default true) is false. -/
def pdf_key_buffer (E : EncKD) (id0 : List Nat) (pw : List Nat) : List Nat :=
  let base := pdf_pad_key pw ++ E.O ++ pBytes E.P ++ id0
  if 3 ≤ E.R then
    if 4 ≤ E.R then
      if E.EncryptMetadata.getD true = false then base ++ [0xff, 0xff, 0xff, 0xff] else base
    else base
  else base

/-- `pdf_compute_encryption_key` (Algorithm 3.2), parameterized by the MD5
capability.  Returns the derived file key together with the diagnostics
raised while resolving /ID.  For `R >= 3` the first `md5_trunk` is followed
by 50 further `md5_trunk` rounds. -/
def pdf_compute_encryption_key (md5 : List Nat → List Nat) (E : EncKD)
    (ID : Option (List Nat)) (pw : List Nat) : List Nat × List Diag :=
  let idr := pdf_id0 ID
  let klen := pdf_key_length E
  let k0 := md5_trunk md5 klen (pdf_key_buffer E idr.1 pw)
  if 3 ≤ E.R then
    (Nat.iterate (md5_trunk md5 klen) 50 k0, idr.2)
  else
    (k0, idr.2)

/-- A concrete, input-dependent stand-in for the MD5 capability used in closed
evaluations: always 16 bytes long. -/
def md5c (s : List Nat) : List Nat :=
  List.map (fun b => (b + s.length) % 256) (List.take 16 (s ++ List.replicate 16 7))

/-! ### Decrypt Orchestrator: the per-object decision of `pdf_run_resolve` -/

/-- The part of the Encrypt dictionary read by the stream-decision loop of
`pdf_run_resolve`. -/
structure EncOrch where
  R : Int
  EncryptMetadata : Option Bool
  StmF : Option String
  deriving DecidableEq, Repr

/-- Terminal state of a resolved (executable-dictionary) object in
`pdf_run_resolve`: either the derived object key is inserted as /StreamKey,
or the object is left unencrypted. -/
inductive ResolveDecision where
  | streamKeySet
  | notEncrypted
  deriving DecidableEq, Repr

/-- The decision loop of `pdf_run_resolve` for an executable dictionary
object, once FileKey is established.  Traced from the source: `R < 3` sets
/StreamKey unconditionally; otherwise (`R >= 3`) EncryptMetadata (default
true) is checked and, when false and the object's /Type is /Metadata, the
object is left unencrypted; then `R < 4` sets /StreamKey; for `R >= 4` an
absent or /Identity StmF leaves the object unencrypted, else /StreamKey is
set. -/
def pdf_run_resolve_decision (E : EncOrch) (objType : Option String) : ResolveDecision :=
  if E.R < 3 then ResolveDecision.streamKeySet
  else if E.EncryptMetadata.getD true = false ∧ objType = some "Metadata" then
    ResolveDecision.notEncrypted
  else if E.R < 4 then ResolveDecision.streamKeySet
  else if E.StmF.getD "Identity" = "Identity" then ResolveDecision.notEncrypted
  else ResolveDecision.streamKeySet

/-! ### Password Verifier, revisions 2-4: `pdf_xorbytes`,
`pdf_gen_user_password_R3`, `pdf_check_pre_r5_user_password` -/

/-- `pdf_xorbytes`: re-key material for round `iter` — every byte of the key
xored with the round number (the buffer being decrypted does not enter). -/
def pdf_xorbytes (iter : Nat) (key : List Nat) : List Nat :=
  key.map (fun b => b ^^^ iter)

/-- `arc4decode` as called with <ciphertext> <key>: empty input is returned
unchanged, otherwise the RC4 capability decrypts it under the key. -/
def arc4decode (rc4f : List Nat → List Nat → List Nat) (data key : List Nat) : List Nat :=
  if data.length = 0 then data else rc4f key data

/-- Algorithm 3.4 step 2 (`pdf_gen_user_password_R2`): RC4-decrypt the
padding constant under the file key. -/
def pdf_gen_user_password_R2 (rc4f : List Nat → List Nat → List Nat)
    (fk : List Nat) : List Nat :=
  arc4decode rc4f pdf_padding_string fk

/-- Algorithm 3.5 steps 2-5 (`pdf_gen_user_password_R3`): MD5 the padding
constant concatenated with id0, RC4-decrypt that under the file key, then 19
rounds of RC4-decrypting under `pdf_xorbytes i fk`. -/
def pdf_gen_user_password_R3 (rc4f : List Nat → List Nat → List Nat)
    (md5 : List Nat → List Nat) (id0 fk : List Nat) : List Nat :=
  List.foldl (fun v i => arc4decode rc4f v (pdf_xorbytes i fk))
    (arc4decode rc4f (md5 (pdf_padding_string ++ id0)) fk) (List.range' 1 19)

/-- `pdf_gen_user_password`: derive the file key from the password, then
dispatch on R (2 uses Algorithm 3.4, 3 and 4 use Algorithm 3.5, anything
else signals /undefined).  Returns the file key and the U candidate. -/
def pdf_gen_user_password (rc4f : List Nat → List Nat → List Nat)
    (md5 : List Nat → List Nat) (E : EncKD) (ID : Option (List Nat))
    (pw : List Nat) : Except String (List Nat × List Nat) :=
  let fk := (pdf_compute_encryption_key md5 E ID pw).1
  if E.R = 2 then Except.ok (fk, pdf_gen_user_password_R2 rc4f fk)
  else if E.R = 3 then Except.ok (fk, pdf_gen_user_password_R3 rc4f md5 (pdf_id0 ID).1 fk)
  else if E.R = 4 then Except.ok (fk, pdf_gen_user_password_R3 rc4f md5 (pdf_id0 ID).1 fk)
  else Except.error "undefined"

/-- Algorithm 3.6 (`pdf_check_pre_r5_user_password`): generate the U
candidate and compare it with the stored /U truncated to the candidate's
length; `ok (some fk)` on success, `ok none` on failure. -/
def pdf_check_pre_r5_user_password (rc4f : List Nat → List Nat → List Nat)
    (md5 : List Nat → List Nat) (E : EncKD) (ID : Option (List Nat))
    (pw : List Nat) : Except String (Option (List Nat)) :=
  match pdf_gen_user_password rc4f md5 E ID pw with
  | Except.error e => Except.error e
  | Except.ok fku =>
    if E.U.take fku.2.length = fku.2 then Except.ok (some fku.1) else Except.ok none

/-- The R3/R4 user check exactly as the amended claim words it: 19 rounds
each re-keying RC4 with `pdf_xorbytes i fileKey` (the whole-key xor with the
1-based round index), comparing the first 16 bytes of the result with the
first 16 bytes of /U. -/
def userCheckR34_amended (rc4f : List Nat → List Nat → List Nat)
    (md5 : List Nat → List Nat) (id0 fk U : List Nat) : Bool :=
  decide
    ((List.foldl (fun v i => rc4f (pdf_xorbytes i fk) v)
        (rc4f fk (md5 (pdf_padding_string ++ id0))) (List.range' 1 19)).take 16 =
      U.take 16)

/-- The xorBytes operation exactly as the original claim words it:
`xorBytes(buf, key, i)[j] = buf[j] XOR key[j] XOR i`, one output byte per
byte of the buffer. -/
def xorBytes_claimed (buf key : List Nat) (i : Nat) : List Nat :=
  (List.range buf.length).map (fun j => buf.getD j 0 ^^^ key.getD j 0 ^^^ i)

/-- The R3/R4 user check exactly as the original claim words it: each round
xors the buffer with the key and the round index, then RC4-decrypts that
under the unmodified file key. -/
def userCheckR34_claimed (rc4f : List Nat → List Nat → List Nat)
    (md5 : List Nat → List Nat) (id0 fk U : List Nat) : Bool :=
  decide
    ((List.foldl (fun v i => rc4f fk (xorBytes_claimed v fk i))
        (rc4f fk (md5 (pdf_padding_string ++ id0))) (List.range' 1 19)).take 16 =
      U.take 16)

/-- A concrete 32-byte /U value for closed runs: the code-side candidate
(computed with `rc4` and `md5c`) followed by 16 zero bytes. -/
def U_C2 : List Nat :=
  [148, 82, 132, 40, 122, 180, 180, 164, 204, 69, 213, 204, 155, 46, 53, 27] ++
    List.replicate 16 0

/-- A concrete R = 3 encryption descriptor for closed runs of the user
check. -/
def EncC2 : EncKD :=
  { R := 3, V := none, Length := none, O := List.range 32, U := U_C2, P := -1,
    EncryptMetadata := none }

/-- The file key `pdf_compute_encryption_key` derives (with `md5c`) for
`EncC2`, id0 = [1,2,3,4] and the empty password. -/
def fkC2 : List Nat := [106, 1, 144, 160, 144]

/-! ### Per-Object Key Deriver: `computeobjkey` -/

/-- PostScript `putinterval`: overwrite `s` from index `idx` with `t`. -/
def putinterval (s : List Nat) (idx : Nat) (t : List Nat) : List Nat :=
  s.take idx ++ t ++ s.drop (idx + t.length)

/-- The 4-byte AES salt literal "sAlT". -/
def sAlTBytes : List Nat := [0x73, 0x41, 0x6c, 0x54]

/-- The part of the Encrypt dictionary read by `computeobjkey`: /V, /StmF and
the /CF dictionary, the latter as an association list from crypt-filter name
to its /CFM name. -/
structure EncObj where
  V : Option Int
  StmF : Option String
  CF : Option (List (String × String))
  deriving DecidableEq, Repr

/-- Look a crypt-filter name up in the /CF dictionary and read its /CFM. -/
def lookupCFM (cf : List (String × String)) (n : String) : Option String :=
  (cf.find? (fun p => p.1 == n)).map Prod.snd

/-- The salt decision of `computeobjkey`: no salt when /StmF is absent or
/Identity or /CF is absent; when /StmF names a filter, its /CFM is fetched
with `oget` (signalling /undefined when missing) and the salt is appended
exactly for /AESV2. -/
def saltDecision (E : EncObj) : Except String Bool :=
  match E.StmF with
  | none => Except.ok false
  | some n =>
    if n = "Identity" then Except.ok false
    else
      match E.CF with
      | none => Except.ok false
      | some cf =>
        match lookupCFM cf n with
        | none => Except.error "undefined"
        | some cfm => Except.ok (cfm == "AESV2")

/-- The crypt-filter method StmF resolves to, in the Inspector's sense: an
absent or /Identity filter name (or an absent /CF) maps to Identity,
otherwise the /CFM of the named filter. -/
def resolvedStmFCFM (E : EncObj) : Except String String :=
  match E.StmF with
  | none => Except.ok "Identity"
  | some n =>
    if n = "Identity" then Except.ok "Identity"
    else
      match E.CF with
      | none => Except.ok "Identity"
      | some cf =>
        match lookupCFM cf n with
        | none => Except.error "undefined"
        | some cfm => Except.ok cfm

/-- `computeobjkey`: for V = 5 the file key itself; otherwise a buffer of
length |FileKey|+5 is built by `putinterval`ing the file key at 0 and
`put`ting the 3 low little-endian bytes of the object number and the 2 low
little-endian bytes of the generation after it, "sAlT" is appended per the
salt decision, and the MD5 of the buffer is truncated to
min(|FileKey|+5, |digest|). -/
def computeobjkey (md5 : List Nat → List Nat) (E : EncObj) (fileKey : List Nat)
    (objnum gen : Nat) : Except String (List Nat) :=
  if E.V = some 5 then Except.ok fileKey
  else
    let fe := fileKey.length
    let s0 := putinterval (List.replicate (fe + 5) 0) 0 fileKey
    let s1 := ((((s0.set fe (objnum % 256)).set (fe + 1) (objnum / 2 ^ 8 % 256)).set
        (fe + 2) (objnum / 2 ^ 16 % 256)).set (fe + 3) (gen % 256)).set
        (fe + 4) (gen / 2 ^ 8 % 256)
    match saltDecision E with
    | Except.error e => Except.error e
    | Except.ok b =>
      let s2 := if b then s1 ++ sAlTBytes else s1
      Except.ok ((md5 s2).take (min (fe + 5) (md5 s2).length))

/-! ### Password Verifier, revisions 5-6: `pdf_check_r5_password`
(Algorithm 3.2a) and the spec-modelled R6 variant -/

/-- `aesdecode` with /Padding false as used by the R5/R6 checks: the
AESDecode filter consumes the first 16 bytes of its input as the CBC
initialization vector (the code always prepends `16 string`, i.e. 16 zero
bytes, before the encrypted field); `aes key iv data` is the
AES-CBC-no-padding capability.  Empty input is returned unchanged. -/
def aesdecode_nopad (aes : List Nat → List Nat → List Nat → List Nat)
    (data key : List Nat) : List Nat :=
  if data.length = 0 then data else aes key (data.take 16) (data.drop 16)

/-- The 3-byte ASCII marker "adb". -/
def adbBytes : List Nat := [0x61, 0x64, 0x62]

/-- The part of the Encrypt dictionary read by the R5/R6 password checks. -/
structure EncR56 where
  O : List Nat
  U : List Nat
  OE : List Nat
  UE : List Nat
  Perms : List Nat
  deriving DecidableEq, Repr

/-- Outcome of an R5/R6 password check: failed comparison, success carrying
the file key, or the signalled /rangecheck on a /Perms mismatch (the
IntegrityError). -/
inductive R5Outcome where
  | failed
  | ok (key : List Nat)
  | integrityError
  deriving DecidableEq, Repr

/-- Steps 1-2 of Algorithm 3.2a: normalize with .saslprep when available
(the capability defaults to the identity), then keep only the first 127
bytes. -/
def r5_truncate_password (saslprep : List Nat → List Nat) (pw : List Nat) : List Nat :=
  if 127 < (saslprep pw).length then (saslprep pw).take 127 else saslprep pw

/-- Steps 3-4 of Algorithm 3.2a on the truncated password: the owner-hash
comparison SHA256(pw ++ O[32:40] ++ U[0:48]) = O[0:32] (on success the key
is AES-decrypted from /OE with a zero IV), then the user-hash comparison
SHA256(pw ++ U[32:40]) = U[0:32] (key from /UE). -/
def pdf_r5_candidate_key_of (sha256 : List Nat → List Nat)
    (aes : List Nat → List Nat → List Nat → List Nat)
    (E : EncR56) (password : List Nat) : Option (List Nat) :=
  if sha256 (password ++ (E.O.drop 32).take 8 ++ E.U.take 48) = E.O.take 32 then
    some (aesdecode_nopad aes (List.replicate 16 0 ++ E.OE)
      (sha256 (password ++ (E.O.drop 40).take 8 ++ E.U.take 48)))
  else if sha256 (password ++ (E.U.drop 32).take 8) = E.U.take 32 then
    some (aesdecode_nopad aes (List.replicate 16 0 ++ E.UE)
      (sha256 (password ++ (E.U.drop 40).take 8)))
  else none

/-- Step 5 of Algorithm 3.2a on a candidate key: AES-decrypt /Perms (16
zero bytes prepended as the IV, no padding) and require bytes 9..11 to be
"adb"; otherwise `/rangecheck signalerror` — the IntegrityError. -/
def pdf_r5_perms_gate (aes : List Nat → List Nat → List Nat → List Nat)
    (E : EncR56) (k : List Nat) : R5Outcome :=
  if ((aesdecode_nopad aes (List.replicate 16 0 ++ E.Perms) k).drop 9).take 3 = adbBytes then
    R5Outcome.ok k
  else R5Outcome.integrityError

/-- Algorithm 3.2a (`pdf_check_r5_password`), parameterized by the SHA-256,
AES-CBC-no-padding and saslprep capabilities. -/
def pdf_check_r5_password (sha256 : List Nat → List Nat)
    (aes : List Nat → List Nat → List Nat → List Nat)
    (saslprep : List Nat → List Nat) (E : EncR56) (pw : List Nat) : R5Outcome :=
  match pdf_r5_candidate_key_of sha256 aes E (r5_truncate_password saslprep pw) with
  | none => R5Outcome.failed
  | some k => pdf_r5_perms_gate aes E k

/-- The candidate-key stage of `pdf_check_r5_password` (hash comparisons
and OE/UE unwrapping) as a function of the caller-supplied password. -/
def pdf_r5_candidate_key (sha256 : List Nat → List Nat)
    (aes : List Nat → List Nat → List Nat → List Nat)
    (saslprep : List Nat → List Nat) (E : EncR56) (pw : List Nat) : Option (List Nat) :=
  pdf_r5_candidate_key_of sha256 aes E (r5_truncate_password saslprep pw)

/-- Modelled from the spec: `check_r6_password` is invoked by
`pdf_check_password` for R = 6 but its implementation is not among the
sources (the file only references and then force-undefines the name).  Per
spec sections 4.2-4.3 the R6 check has the shape of Algorithm 3.2a with the
hardened iterative hash capability `hardenedHash(password, salt, extra)` in
place of plain SHA-256.  This is its candidate-key stage. -/
def check_r6_candidate_key_of (hh : List Nat → List Nat → List Nat → List Nat)
    (aes : List Nat → List Nat → List Nat → List Nat)
    (E : EncR56) (password : List Nat) : Option (List Nat) :=
  if hh password ((E.O.drop 32).take 8) (E.U.take 48) = E.O.take 32 then
    some (aesdecode_nopad aes (List.replicate 16 0 ++ E.OE)
      (hh password ((E.O.drop 40).take 8) (E.U.take 48)))
  else if hh password ((E.U.drop 32).take 8) [] = E.U.take 32 then
    some (aesdecode_nopad aes (List.replicate 16 0 ++ E.UE)
      (hh password ((E.U.drop 40).take 8) []))
  else none

/-- Modelled from the spec: the R6 password check — the hardened-hash
candidate-key stage followed by the same /Perms "adb" integrity gate as
R5. -/
def check_r6_password (hh : List Nat → List Nat → List Nat → List Nat)
    (aes : List Nat → List Nat → List Nat → List Nat)
    (saslprep : List Nat → List Nat) (E : EncR56) (pw : List Nat) : R5Outcome :=
  match check_r6_candidate_key_of hh aes E (r5_truncate_password saslprep pw) with
  | none => R5Outcome.failed
  | some k => pdf_r5_perms_gate aes E k

/-- The candidate-key stage of the spec-modelled R6 check as a function of
the caller-supplied password. -/
def check_r6_candidate_key (hh : List Nat → List Nat → List Nat → List Nat)
    (aes : List Nat → List Nat → List Nat → List Nat)
    (saslprep : List Nat → List Nat) (E : EncR56) (pw : List Nat) : Option (List Nat) :=
  check_r6_candidate_key_of hh aes E (r5_truncate_password saslprep pw)

/-- Constant stand-in for the SHA-256 capability: 32 zero bytes. -/
def sha256c (_s : List Nat) : List Nat := List.replicate 32 0

/-- Constant stand-in for the hardened R6 hash capability: 32 zero bytes. -/
def hhc (_pw _salt _extra : List Nat) : List Nat := List.replicate 32 0

/-- Identity stand-in for the AES-CBC-no-padding capability: returns the
data untouched. -/
def aesid (_key _iv data : List Nat) : List Nat := data

/-- A concrete R5/R6 descriptor whose hash comparisons pass under `sha256c`
and `hhc`, with a /Perms whose decryption (under `aesid`) does not carry the
"adb" marker. -/
def E6 : EncR56 :=
  { O := List.replicate 48 0, U := List.replicate 48 0, OE := List.replicate 32 9,
    UE := List.replicate 32 9, Perms := List.replicate 16 1 }

/-! ### `pdf_process_Encrypt`: policy decision plus password attempts -/

/-- The password-attempt sequence of `pdf_process_Encrypt` once it has
decided to verify: the empty password is checked first and, on success,
defines /FileKey; only if it fails both checks is a caller-supplied
PDFPassword tried; a failing supplied password (or no supplied password at
all) signals /invalidfileaccess.  The whole of `pdf_check_password`
(user-then-owner attempts, locale retry) is the capability `checkPw`,
returning the established file key on success. -/
def pdf_verify_password (checkPw : List Nat → Option (List Nat))
    (pwOpt : Option (List Nat)) : Except String (Option (List Nat)) :=
  match checkPw [] with
  | some k => Except.ok (some k)
  | none =>
    match pwOpt with
    | some pw =>
      match checkPw pw with
      | some k => Except.ok (some k)
      | none => Except.error "Password did not work"
    | none => Except.error "This file requires a password for access"

/-- `pdf_process_Encrypt`: reject a non-Standard /Filter, run the
password-requirement test (`isRequired`), and verify exactly when a password
is required or a PDFPassword was supplied; otherwise only warn and leave
/FileKey undefined (`ok none`). -/
def pdf_process_Encrypt (checkPw : List Nat → Option (List Nat)) (E : EncPol)
    (pwOpt : Option (List Nat)) : Except String (Option (List Nat)) :=
  if E.filterName ≠ "Standard" then Except.error "unknown security handler"
  else
    match isRequired E with
    | Except.error e => Except.error e
    | Except.ok req =>
      if req || pwOpt.isSome then pdf_verify_password checkPw pwOpt
      else Except.ok none

/-! ### Helper lemmas and the claim theorems -/

set_option maxRecDepth 100000 in
example : rc4 [0x57, 0x69, 0x6b, 0x69] [0x70, 0x65, 0x64, 0x69, 0x61] =
    [0x10, 0x21, 0xbf, 0x04, 0x20] := by decide

theorem md5c_length : ∀ s : List Nat, (md5c s).length = 16 := by
  intro s
  simp [md5c]

theorem getD_true_eq_false_iff (o : Option Bool) : o.getD true = false ↔ o = some false := by
  cases o <;> simp

theorem rc4prga_length : ∀ (l : List Nat) (S i j : Nat), (rc4prga S i j l).length = l.length := by
  intro l
  induction l with
  | nil => intro S i j; rfl
  | cons b rest ih => intro S i j; simp [rc4prga, ih]

theorem rc4_length : ∀ k d : List Nat, (rc4 k d).length = d.length := fun k d =>
  rc4prga_length d (rc4init k) 0 0

theorem foldl_arc4_rounds (rc4f : List Nat → List Nat → List Nat)
    (hlen : ∀ k d, (rc4f k d).length = d.length) (fk : List Nat) :
    ∀ (l : List Nat) (u : List Nat), u.length = 16 →
      List.foldl (fun v i => arc4decode rc4f v (pdf_xorbytes i fk)) u l =
        List.foldl (fun v i => rc4f (pdf_xorbytes i fk) v) u l ∧
      (List.foldl (fun v i => arc4decode rc4f v (pdf_xorbytes i fk)) u l).length = 16 := by
  intro l
  induction l with
  | nil => exact fun u hu => ⟨rfl, hu⟩
  | cons i t ih =>
    intro u hu
    have hne : ¬ u.length = 0 := by omega
    have hstep : arc4decode rc4f u (pdf_xorbytes i fk) = rc4f (pdf_xorbytes i fk) u := by
      simp [arc4decode, hne]
    have hslen : (rc4f (pdf_xorbytes i fk) u).length = 16 := by
      rw [hlen]; exact hu
    have := ih (rc4f (pdf_xorbytes i fk) u) hslen
    simpa [List.foldl_cons, hstep] using this

theorem drop_replicate_add (k : Nat) :
    ∀ n : Nat, (List.replicate (n + k) (0:Nat)).drop n = List.replicate k 0 := by
  intro n
  induction n with
  | zero => simp
  | succ m ih =>
    have : m + 1 + k = (m + k) + 1 := by omega
    rw [this, List.replicate_succ, List.drop_succ_cons, ih]

theorem set_append_right (bs : List Nat) (v : Nat) :
    ∀ (as : List Nat) (n : Nat), as.length ≤ n →
      (as ++ bs).set n v = as ++ bs.set (n - as.length) v := by
  intro as
  induction as with
  | nil => intro n h; simp
  | cons a t ih =>
    intro n h
    rcases n with _ | m
    · simp at h
    · have hm : t.length ≤ m := by simpa using h
      simp [List.set, ih m hm]

theorem objkey_buffer_eq (fk : List Nat) (o g : Nat) :
    ((((((putinterval (List.replicate (fk.length + 5) 0) 0 fk).set fk.length (o % 256)).set
        (fk.length + 1) (o / 2 ^ 8 % 256)).set (fk.length + 2) (o / 2 ^ 16 % 256)).set
        (fk.length + 3) (g % 256)).set (fk.length + 4) (g / 2 ^ 8 % 256)) =
      fk ++ [o % 256, o / 2 ^ 8 % 256, o / 2 ^ 16 % 256, g % 256, g / 2 ^ 8 % 256] := by
  have h0 : putinterval (List.replicate (fk.length + 5) 0) 0 fk =
      fk ++ List.replicate 5 0 := by
    simp [putinterval, drop_replicate_add 5 fk.length]
  rw [h0]
  rw [set_append_right _ _ fk (fk.length) (le_refl _)]
  rw [set_append_right _ _ fk (fk.length + 1) (by omega)]
  rw [set_append_right _ _ fk (fk.length + 2) (by omega)]
  rw [set_append_right _ _ fk (fk.length + 3) (by omega)]
  rw [set_append_right _ _ fk (fk.length + 4) (by omega)]
  have e0 : fk.length - fk.length = 0 := by omega
  have e1 : fk.length + 1 - fk.length = 1 := by omega
  have e2 : fk.length + 2 - fk.length = 2 := by omega
  have e3 : fk.length + 3 - fk.length = 3 := by omega
  have e4 : fk.length + 4 - fk.length = 4 := by omega
  rw [e0, e1, e2, e3, e4]
  simp [List.replicate, List.set]

theorem aesdecode_zero_iv (aes : List Nat → List Nat → List Nat → List Nat)
    (X k : List Nat) :
    aesdecode_nopad aes (List.replicate 16 0 ++ X) k =
      aes k (List.replicate 16 0) X := by
  have hlen : ¬ (List.replicate 16 (0:Nat) ++ X).length = 0 := by simp
  have ht : (List.replicate 16 (0:Nat) ++ X).take 16 = List.replicate 16 0 := by
    simp
  have hd : (List.replicate 16 (0:Nat) ++ X).drop 16 = X := by
    simp
  simp [aesdecode_nopad, hlen, ht, hd]

theorem r5_truncate_eq_take (saslprep : List Nat → List Nat) (pw : List Nat) :
    r5_truncate_password saslprep pw = (saslprep pw).take 127 := by
  rw [r5_truncate_password]
  split_ifs with h
  · rfl
  · exact (List.take_of_length_le (by omega)).symm

/-- C1 counterexample to the claim as stated: a descriptor with V = 4,
StmF = StrF = /Identity and StdCF present with AuthEvent = /DocOpen — the
claim says no password is required there (result `ok false`), but the test
reports that a password IS required (the code ors `AuthEvent == /DocOpen`
into the requirement). -/
theorem C1_counterexample :
    isRequired { filterName := "Standard", V := 4, StmF := some "Identity",
                 StrF := some "Identity",
                 CF := some (CFVal.dict (some (StdCFVal.dict (some (AEVal.name "DocOpen"))))) } =
        Except.ok true ∧
    (Except.ok true : Except String Bool) ≠ Except.ok false := by
  decide

/-- C1 (amended): the password-requirement test reports that no password is
required exactly when V >= 4, StmF resolves to Identity (absent or
/Identity), StrF resolves to Identity, and StdCF is present with an
/AuthEvent name other than /DocOpen; when CF, StdCF or AuthEvent is absent
(or AuthEvent is /DocOpen) the result defaults to require = true. -/
theorem C1_isRequired_characterization :
    ∀ E : EncPol,
      isRequired E = Except.ok false ↔
        (4 ≤ E.V ∧ (E.StmF = none ∨ E.StmF = some "Identity") ∧
         (E.StrF = none ∨ E.StrF = some "Identity") ∧
         ∃ n, authEventName E = some n ∧ n ≠ "DocOpen") := by
  intro E
  rcases E with ⟨f, V, stmf, strf, cf⟩
  by_cases hV : (4:Int) ≤ V
  · rcases cf with _ | cfv
    · simp [isRequired, authEventName, hV]
    · rcases cfv with stdcf | _
      · rcases stdcf with _ | sv
        · simp [isRequired, authEventName, hV]
        · rcases sv with ae | _
          · rcases ae with _ | av
            · simp [isRequired, authEventName, hV]
            · rcases av with n | _
              · rcases stmf with _ | s1 <;> rcases strf with _ | s2 <;>
                  (simp [isRequired, authEventName, hV]; try tauto)
              · simp [isRequired, authEventName, hV]
          · simp [isRequired, authEventName, hV]
      · simp [isRequired, authEventName, hV]
  · simp [isRequired, authEventName, hV]

/-- C2 (amended): for R in {3, 4}, assuming the MD5 capability yields 16
bytes and the RC4 capability is length-preserving, the user-password check
computes h = MD5(paddingString ++ id0), u = RC4_decrypt(h, fileKey), then
19 rounds u = RC4_decrypt(u, xorBytes(fileKey, i)) where
`xorBytes(key, i)[j] = key[j] XOR i`, and succeeds (with the derived file
key) exactly when the resulting u[0:16] equals U[0:16]. -/
theorem C2_user_check_characterization :
    ∀ (rc4f : List Nat → List Nat → List Nat) (md5 : List Nat → List Nat)
      (E : EncKD) (ID : Option (List Nat)) (pw : List Nat),
      (∀ s, (md5 s).length = 16) →
      (∀ k d, (rc4f k d).length = d.length) →
      (E.R = 3 ∨ E.R = 4) →
      pdf_check_pre_r5_user_password rc4f md5 E ID pw =
        Except.ok
          (if userCheckR34_amended rc4f md5 (pdf_id0 ID).1
                ((pdf_compute_encryption_key md5 E ID pw).1) E.U = true then
            some ((pdf_compute_encryption_key md5 E ID pw).1)
          else none) := by
  intro rc4f md5 E ID pw hmd5 hrc4 hR
  set fk := (pdf_compute_encryption_key md5 E ID pw).1 with hfkdef
  set id0 := (pdf_id0 ID).1 with hid0def
  have hgen : pdf_gen_user_password rc4f md5 E ID pw =
      Except.ok (fk, pdf_gen_user_password_R3 rc4f md5 id0 fk) := by
    rcases hR with h | h <;> simp [pdf_gen_user_password, h]
  have hhlen : ¬ (md5 (pdf_padding_string ++ id0)).length = 0 := by
    rw [hmd5]; omega
  have hu0 : arc4decode rc4f (md5 (pdf_padding_string ++ id0)) fk =
      rc4f fk (md5 (pdf_padding_string ++ id0)) := by
    simp [arc4decode, hhlen]
  have hu0len : (rc4f fk (md5 (pdf_padding_string ++ id0))).length = 16 := by
    rw [hrc4, hmd5]
  have hfold := foldl_arc4_rounds rc4f hrc4 fk (List.range' 1 19)
      (rc4f fk (md5 (pdf_padding_string ++ id0))) hu0len
  have hcand : pdf_gen_user_password_R3 rc4f md5 id0 fk =
      List.foldl (fun v i => rc4f (pdf_xorbytes i fk) v)
        (rc4f fk (md5 (pdf_padding_string ++ id0))) (List.range' 1 19) := by
    rw [pdf_gen_user_password_R3, hu0]
    exact hfold.1
  have hlen16 : (List.foldl (fun v i => rc4f (pdf_xorbytes i fk) v)
      (rc4f fk (md5 (pdf_padding_string ++ id0))) (List.range' 1 19)).length = 16 := by
    rw [← hfold.1, ← hu0]
    rw [hu0]
    exact hfold.2
  set u := List.foldl (fun v i => rc4f (pdf_xorbytes i fk) v)
      (rc4f fk (md5 (pdf_padding_string ++ id0))) (List.range' 1 19) with hudef
  have hu16 : u.take 16 = u := by
    rw [← hlen16]
    exact List.take_length u
  simp only [pdf_check_pre_r5_user_password, hgen, hcand]
  rw [hlen16]
  simp only [userCheckR34_amended, ← hudef]
  by_cases hc : List.take 16 E.U = u
  · rw [if_pos hc]
    have hd : List.take 16 u = List.take 16 E.U := by rw [hu16, hc]
    simp [hd]
  · rw [if_neg hc]
    have hd : ¬ List.take 16 u = List.take 16 E.U := by
      rw [hu16]
      exact fun h2 => hc h2.symm
    simp [hd]

/-- Witness for C2 (amended): the characterization applied at the real RC4,
the concrete `md5c`, the descriptor `EncC2`, id0 = [1,2,3,4] and the empty
password. -/
theorem C2_user_check_characterization_witness :
    pdf_check_pre_r5_user_password rc4 md5c EncC2 (some [1, 2, 3, 4]) [] =
      Except.ok
        (if userCheckR34_amended rc4 md5c (pdf_id0 (some [1, 2, 3, 4])).1
              ((pdf_compute_encryption_key md5c EncC2 (some [1, 2, 3, 4]) []).1) EncC2.U = true then
          some ((pdf_compute_encryption_key md5c EncC2 (some [1, 2, 3, 4]) []).1)
        else none) :=
  C2_user_check_characterization rc4 md5c EncC2 (some [1, 2, 3, 4]) [] md5c_length rc4_length
    (Or.inl rfl)

set_option maxRecDepth 100000 in
set_option maxHeartbeats 1000000 in
/-- C2 counterexample to the claim as stated: a concrete R = 3 run (real
RC4, `md5c` as the MD5 capability, descriptor `EncC2`, id0 = [1,2,3,4],
empty password) in which the code's user check succeeds with the derived
file key `fkC2`, yet the check described by the claim (each round
RC4-decrypting `xorBytes(u, fileKey, i)[j] = u[j] XOR fileKey[j] XOR i`
under the unmodified file key) reports failure on the same inputs: the two
computations are different functions. -/
theorem C2_counterexample :
    (pdf_compute_encryption_key md5c EncC2 (some [1, 2, 3, 4]) []).1 = fkC2 ∧
    pdf_check_pre_r5_user_password rc4 md5c EncC2 (some [1, 2, 3, 4]) [] =
      Except.ok (some fkC2) ∧
    userCheckR34_claimed rc4 md5c [1, 2, 3, 4] fkC2 EncC2.U = false := by
  refine ⟨by decide, by decide, by decide⟩

/-- C3 counterexample to the claim as stated: at R = 3 with
EncryptMetadata = false, an object whose /Type is /Metadata is left
unencrypted — the orchestrator does NOT behave like the R < 3 rule (which
the claim says it matches unconditionally), because the
EncryptMetadata branch is taken for every R >= 3. -/
theorem C3_counterexample :
    pdf_run_resolve_decision { R := 3, EncryptMetadata := some false, StmF := none }
        (some "Metadata") =
        ResolveDecision.notEncrypted ∧
    pdf_run_resolve_decision { R := 2, EncryptMetadata := some false, StmF := none }
        (some "Metadata") =
        ResolveDecision.streamKeySet := by
  decide

/-- C3 (amended): for every object resolved after FileKey is established,
R < 3 ends unconditionally in StreamKeySet; at R = 3 the orchestrator DOES
branch on EncryptMetadata (an object with /Type /Metadata is left
unencrypted when EncryptMetadata is false) but not on StmF; only R >= 4
additionally branches on an Identity StmF. -/
theorem C3_run_resolve_rules :
    ∀ (E : EncOrch) (objType : Option String),
      (E.R < 3 → pdf_run_resolve_decision E objType = ResolveDecision.streamKeySet) ∧
      (E.R = 3 →
        (pdf_run_resolve_decision E objType = ResolveDecision.notEncrypted ↔
          (E.EncryptMetadata = some false ∧ objType = some "Metadata"))) ∧
      (4 ≤ E.R →
        pdf_run_resolve_decision E objType =
          if E.EncryptMetadata = some false ∧ objType = some "Metadata" then
            ResolveDecision.notEncrypted
          else if E.StmF.getD "Identity" = "Identity" then ResolveDecision.notEncrypted
          else ResolveDecision.streamKeySet) := by
  intro E objType
  refine ⟨fun h => ?_, fun h => ?_, fun h => ?_⟩
  · simp [pdf_run_resolve_decision, h]
  · have h3 : ¬ E.R < 3 := by omega
    have h4 : E.R < 4 := by omega
    by_cases hem : E.EncryptMetadata.getD true = false ∧ objType = some "Metadata"
    · have : E.EncryptMetadata = some false ∧ objType = some "Metadata" :=
        ⟨(getD_true_eq_false_iff _).1 hem.1, hem.2⟩
      simp [pdf_run_resolve_decision, h3, h4, hem, this]
    · have hne : ¬ (E.EncryptMetadata = some false ∧ objType = some "Metadata") := by
        intro hc
        exact hem ⟨(getD_true_eq_false_iff _).2 hc.1, hc.2⟩
      simp [pdf_run_resolve_decision, h3, h4, hem, hne]
  · have h3 : ¬ E.R < 3 := by omega
    have h4 : ¬ E.R < 4 := by omega
    by_cases hem : E.EncryptMetadata = some false ∧ objType = some "Metadata"
    · have hg : E.EncryptMetadata.getD true = false ∧ objType = some "Metadata" :=
        ⟨(getD_true_eq_false_iff _).2 hem.1, hem.2⟩
      simp [pdf_run_resolve_decision, h3, h4, hem, hg]
    · have hg : ¬ (E.EncryptMetadata.getD true = false ∧ objType = some "Metadata") := by
        intro hc
        exact hem ⟨(getD_true_eq_false_iff _).1 hc.1, hc.2⟩
      simp [pdf_run_resolve_decision, h3, h4, hem, hg]

/-- Witness for C3 (amended): the R = 3 rule applied at a concrete
descriptor and object type. -/
theorem C3_run_resolve_rules_witness :
    pdf_run_resolve_decision { R := 3, EncryptMetadata := some false, StmF := some "StdCF" }
        (some "Metadata") =
        ResolveDecision.notEncrypted ↔
      (({ R := 3, EncryptMetadata := some false, StmF := some "StdCF" } : EncOrch).EncryptMetadata =
          some false ∧
        (some "Metadata" : Option String) = some "Metadata") :=
  (C3_run_resolve_rules { R := 3, EncryptMetadata := some false, StmF := some "StdCF" }
      (some "Metadata")).2.1 rfl

/-- C4: in `pdf_compute_encryption_key` the four 0xFF bytes for
EncryptMetadata = false are appended to the MD5 input exactly when `R >= 4`
and /EncryptMetadata is explicitly false; at `R = 3` the step is skipped, so
an R = 3 descriptor yields the same file key for every /EncryptMetadata
value. -/
theorem C4_encrypt_metadata_ff_gate :
    ∀ (E : EncKD) (id0 pw : List Nat),
      pdf_key_buffer E id0 pw =
        (pdf_pad_key pw ++ E.O ++ pBytes E.P ++ id0) ++
          (if 4 ≤ E.R ∧ E.EncryptMetadata = some false then [0xff, 0xff, 0xff, 0xff] else []) ∧
      (∀ (md5 : List Nat → List Nat) (ID : Option (List Nat)) (em em2 : Option Bool),
        E.R = 3 →
        pdf_compute_encryption_key md5 { E with EncryptMetadata := em } ID pw =
          pdf_compute_encryption_key md5 { E with EncryptMetadata := em2 } ID pw) := by
  intro E id0 pw
  constructor
  · simp only [pdf_key_buffer]
    by_cases h3 : (3:Int) ≤ E.R
    · by_cases h4 : (4:Int) ≤ E.R
      · by_cases hem : E.EncryptMetadata = some false
        · simp [h3, h4, hem]
        · have hg : ¬ E.EncryptMetadata.getD true = false := fun hc =>
            hem ((getD_true_eq_false_iff _).1 hc)
          simp [h3, h4, hem, hg]
      · simp [h3, h4]
    · have h4 : ¬ (4:Int) ≤ E.R := by omega
      simp [h3, h4]
  · intro md5 ID em em2 hR
    simp [pdf_compute_encryption_key, pdf_key_buffer, pdf_key_length, pdf_id0, hR]

/-- Witness for C4: a concrete R = 3 descriptor gives the same key with
/EncryptMetadata absent and with /EncryptMetadata = false. -/
theorem C4_encrypt_metadata_ff_gate_witness :
    pdf_compute_encryption_key md5c
        { R := 3, V := none, Length := none, O := List.replicate 32 1, U := [], P := -4,
          EncryptMetadata := none } (some [2, 3]) [5] =
      pdf_compute_encryption_key md5c
        { R := 3, V := none, Length := none, O := List.replicate 32 1, U := [], P := -4,
          EncryptMetadata := some false } (some [2, 3]) [5] :=
  (C4_encrypt_metadata_ff_gate
      { R := 3, V := none, Length := none, O := List.replicate 32 1, U := [], P := -4,
        EncryptMetadata := none } [2, 3] [5]).2 md5c (some [2, 3]) none (some false) rfl

/-- C5: `computeobjkey` returns the file key unchanged whenever V = 5
(independent of objnum and gen); otherwise — provided the crypt-filter
method resolves (no /undefined signal) and MD5 yields 16 bytes — it returns
MD5(fileKey ++ objnum as 3 little-endian bytes ++ gen as 2 little-endian
bytes, with "sAlT" appended exactly when the resolved StmF method is AESV2)
truncated to min(|fileKey|+5, 16) bytes. -/
theorem C5_computeobjkey_formula :
    ∀ (md5 : List Nat → List Nat) (E : EncObj) (fileKey : List Nat) (objnum gen : Nat)
      (cfm : String),
      (∀ s, (md5 s).length = 16) →
      resolvedStmFCFM E = Except.ok cfm →
      computeobjkey md5 E fileKey objnum gen =
        if E.V = some 5 then Except.ok fileKey
        else
          Except.ok
            ((md5 (fileKey ++
                [objnum % 256, objnum / 2 ^ 8 % 256, objnum / 2 ^ 16 % 256,
                 gen % 256, gen / 2 ^ 8 % 256] ++
                (if cfm = "AESV2" then sAlTBytes else []))).take
              (min (fileKey.length + 5) 16)) := by
  intro md5 E fileKey objnum gen cfm hmd5 hcfm
  by_cases hV : E.V = some 5
  · simp [computeobjkey, hV]
  · have hsalt : saltDecision E = Except.ok (cfm == "AESV2") := by
      rcases E with ⟨V, stmf, cf⟩
      rcases stmf with _ | n
      · simp [saltDecision, resolvedStmFCFM] at hcfm ⊢
        subst hcfm
        decide
      · by_cases hn : n = "Identity"
        · simp [saltDecision, resolvedStmFCFM, hn] at hcfm ⊢
          subst hcfm
          decide
        · rcases cf with _ | cfl
          · simp [saltDecision, resolvedStmFCFM, hn] at hcfm ⊢
            subst hcfm
            decide
          · rcases hl : lookupCFM cfl n with _ | c
            · simp [saltDecision, resolvedStmFCFM, hn, hl] at hcfm
            · simp [saltDecision, resolvedStmFCFM, hn, hl] at hcfm ⊢
              subst hcfm
              rfl
    rw [if_neg hV]
    simp only [computeobjkey, if_neg hV, hsalt, objkey_buffer_eq, hmd5]
    by_cases hc : cfm = "AESV2"
    · simp [hc, List.append_assoc]
    · have : (cfm == "AESV2") = false := by
        simp [hc]
      simp [this, hc]

/-- Witness for C5: the formula applied at a concrete AESV2 descriptor, a
5-byte file key and object 7 generation 0, with `md5c` for MD5. -/
theorem C5_computeobjkey_formula_witness :
    computeobjkey md5c
        { V := some 4, StmF := some "StdCF", CF := some [("StdCF", "AESV2")] }
        [1, 2, 3, 4, 5] 7 0 =
      if ({ V := some 4, StmF := some "StdCF", CF := some [("StdCF", "AESV2")] } : EncObj).V =
          some 5 then
        Except.ok [1, 2, 3, 4, 5]
      else
        Except.ok
          ((md5c ([1, 2, 3, 4, 5] ++
              [7 % 256, 7 / 2 ^ 8 % 256, 7 / 2 ^ 16 % 256, 0 % 256, 0 / 2 ^ 8 % 256] ++
              (if "AESV2" = "AESV2" then sAlTBytes else []))).take
            (min ([1, 2, 3, 4, 5].length + 5) 16)) :=
  C5_computeobjkey_formula md5c
    { V := some 4, StmF := some "StdCF", CF := some [("StdCF", "AESV2")] }
    [1, 2, 3, 4, 5] 7 0 "AESV2" md5c_length rfl

/-- C6: for R5 (`pdf_check_r5_password`) and R6 (spec-modelled
`check_r6_password`), whenever the hash-comparison stage has yielded a
candidate file key k, /Perms is decrypted with AES-CBC (key k, zero IV, no
padding) and the check raises IntegrityError — rather than reporting
success — exactly when bytes 9..11 of the decryption differ from the ASCII
marker "adb"; it reports success with k exactly when they match. -/
theorem C6_perms_integrity_gate :
    ∀ (sha256 : List Nat → List Nat) (hh : List Nat → List Nat → List Nat → List Nat)
      (aes : List Nat → List Nat → List Nat → List Nat)
      (saslprep : List Nat → List Nat) (E : EncR56) (pw k : List Nat),
      (pdf_r5_candidate_key sha256 aes saslprep E pw = some k →
        ((pdf_check_r5_password sha256 aes saslprep E pw = R5Outcome.integrityError ↔
            ¬ ((aes k (List.replicate 16 0) E.Perms).drop 9).take 3 = adbBytes) ∧
          (pdf_check_r5_password sha256 aes saslprep E pw = R5Outcome.ok k ↔
            ((aes k (List.replicate 16 0) E.Perms).drop 9).take 3 = adbBytes))) ∧
      (check_r6_candidate_key hh aes saslprep E pw = some k →
        ((check_r6_password hh aes saslprep E pw = R5Outcome.integrityError ↔
            ¬ ((aes k (List.replicate 16 0) E.Perms).drop 9).take 3 = adbBytes) ∧
          (check_r6_password hh aes saslprep E pw = R5Outcome.ok k ↔
            ((aes k (List.replicate 16 0) E.Perms).drop 9).take 3 = adbBytes))) := by
  intro sha256 hh aes saslprep E pw k
  constructor
  · intro hk
    rw [pdf_r5_candidate_key] at hk
    simp only [pdf_check_r5_password, hk, pdf_r5_perms_gate, aesdecode_zero_iv]
    by_cases hc : ((aes k (List.replicate 16 0) E.Perms).drop 9).take 3 = adbBytes
    · simp [hc]
    · simp [hc]
  · intro hk
    rw [check_r6_candidate_key] at hk
    simp only [check_r6_password, hk, pdf_r5_perms_gate, aesdecode_zero_iv]
    by_cases hc : ((aes k (List.replicate 16 0) E.Perms).drop 9).take 3 = adbBytes
    · simp [hc]
    · simp [hc]

/-- Witness for C6: the gate applied at `E6` with stub capabilities, where
the candidate key [9, ..., 9] is derived and the "adb" test decides the
outcome. -/
theorem C6_perms_integrity_gate_witness :
    ((pdf_check_r5_password sha256c aesid (fun p => p) E6 [] = R5Outcome.integrityError ↔
        ¬ ((aesid (List.replicate 32 9) (List.replicate 16 0) E6.Perms).drop 9).take 3 =
          adbBytes) ∧
      (pdf_check_r5_password sha256c aesid (fun p => p) E6 [] =
          R5Outcome.ok (List.replicate 32 9) ↔
        ((aesid (List.replicate 32 9) (List.replicate 16 0) E6.Perms).drop 9).take 3 =
          adbBytes)) ∧
    ((check_r6_password hhc aesid (fun p => p) E6 [] = R5Outcome.integrityError ↔
        ¬ ((aesid (List.replicate 32 9) (List.replicate 16 0) E6.Perms).drop 9).take 3 =
          adbBytes) ∧
      (check_r6_password hhc aesid (fun p => p) E6 [] = R5Outcome.ok (List.replicate 32 9) ↔
        ((aesid (List.replicate 32 9) (List.replicate 16 0) E6.Perms).drop 9).take 3 =
          adbBytes)) :=
  ⟨(C6_perms_integrity_gate sha256c hhc aesid (fun p => p) E6 [] (List.replicate 32 9)).1
      (by decide),
   (C6_perms_integrity_gate sha256c hhc aesid (fun p => p) E6 [] (List.replicate 32 9)).2
      (by decide)⟩

/-- C7: whenever an explicit password was supplied, `pdf_process_Encrypt`
runs full password verification even when the password-requirement test
concluded that no password is needed. -/
theorem C7_explicit_password_forces_verification :
    ∀ (checkPw : List Nat → Option (List Nat)) (E : EncPol) (pw : List Nat),
      E.filterName = "Standard" →
      isRequired E = Except.ok false →
      pdf_process_Encrypt checkPw E (some pw) = pdf_verify_password checkPw (some pw) := by
  intro checkPw E pw hf hreq
  rw [pdf_process_Encrypt, hreq]
  simp [hf]

/-- Witness for C7: a V = 4 descriptor with Identity StmF/StrF and
AuthEvent = /EFOpen (so no password is required), a supplied password, and
an always-failing check capability. -/
theorem C7_explicit_password_forces_verification_witness :
    pdf_process_Encrypt (fun _ => none)
        { filterName := "Standard", V := 4, StmF := some "Identity", StrF := some "Identity",
          CF := some (CFVal.dict (some (StdCFVal.dict (some (AEVal.name "EFOpen"))))) }
        (some [65, 66]) =
      pdf_verify_password (fun _ => none) (some [65, 66]) :=
  C7_explicit_password_forces_verification (fun _ => none)
    { filterName := "Standard", V := 4, StmF := some "Identity", StrF := some "Identity",
      CF := some (CFVal.dict (some (StdCFVal.dict (some (AEVal.name "EFOpen"))))) }
    [65, 66] rfl (by decide)

/-- C8 (amended): an absent trailer /ID does not abort the R2-R4 key
derivation: the id0 contribution is the empty string (the key equals the one
derived with an explicit empty id0), a non-fatal format *error* diagnostic
pair is raised (the code calls `pdfformaterror`, not `pdfformatwarning`),
and a key is still produced. -/
theorem C8_missing_id_nonfatal :
    ∀ (md5 : List Nat → List Nat) (E : EncKD) (pw : List Nat),
      (pdf_compute_encryption_key md5 E none pw).1 =
        (pdf_compute_encryption_key md5 E (some []) pw).1 ∧
      (pdf_compute_encryption_key md5 E none pw).2 =
        [Diag.formatError "   **** Error: ID key in the trailer is required for encrypted files.\n",
         Diag.formatError "               File may not be possible to decrypt.\n"] := by
  intro md5 E pw
  by_cases h : (3:Int) ≤ E.R <;>
    simp [pdf_compute_encryption_key, pdf_id0, h]

/-- C8 counterexample to the claim as stated: at a concrete descriptor with
/ID absent the computation still yields a (5-byte) key, but the diagnostics
raised are two `pdfformaterror` messages and no format warning at all, while
the claim states a format warning is raised. -/
theorem C8_counterexample :
    (pdf_compute_encryption_key md5c
        { R := 2, V := none, Length := none, O := List.replicate 32 0, U := [], P := 0,
          EncryptMetadata := none } none []).2 =
      [Diag.formatError "   **** Error: ID key in the trailer is required for encrypted files.\n",
       Diag.formatError "               File may not be possible to decrypt.\n"] ∧
    ((pdf_compute_encryption_key md5c
        { R := 2, V := none, Length := none, O := List.replicate 32 0, U := [], P := 0,
          EncryptMetadata := none } none []).1).length = 5 := by
  constructor <;> rfl

/-- C9: whenever verification runs, the empty password is tried first: if it
verifies (establishing key k), the result is k no matter which PDFPassword
was supplied; the supplied password is consulted only when the empty
password fails. -/
theorem C9_empty_password_first :
    ∀ (checkPw : List Nat → Option (List Nat)) (E : EncPol) (pw : List Nat) (k : List Nat)
      (b : Bool),
      E.filterName = "Standard" →
      isRequired E = Except.ok b →
      (checkPw [] = some k →
        pdf_process_Encrypt checkPw E (some pw) = Except.ok (some k)) ∧
      (checkPw [] = none →
        pdf_process_Encrypt checkPw E (some pw) =
          match checkPw pw with
          | some k2 => Except.ok (some k2)
          | none => Except.error "Password did not work") := by
  intro checkPw E pw k b hf hreq
  constructor
  · intro hk
    rw [pdf_process_Encrypt, hreq]
    simp [hf, pdf_verify_password, hk]
  · intro hk
    rw [pdf_process_Encrypt, hreq]
    simp [hf, pdf_verify_password, hk]

/-- Witness for C9: a required-password descriptor (V = 2), a supplied
password [66], and a check capability accepting exactly the empty password
with key [1, 2, 3, 4, 5]. -/
theorem C9_empty_password_first_witness :
    pdf_process_Encrypt (fun p => if p = [] then some [1, 2, 3, 4, 5] else none)
        { filterName := "Standard", V := 2, StmF := none, StrF := none, CF := none }
        (some [66]) =
      Except.ok (some [1, 2, 3, 4, 5]) :=
  (C9_empty_password_first (fun p => if p = [] then some [1, 2, 3, 4, 5] else none)
      { filterName := "Standard", V := 2, StmF := none, StrF := none, CF := none }
      [66] [1, 2, 3, 4, 5] true rfl (by decide)).1 (by decide)

/-- C10: only the first 127 bytes of the candidate password enter the R5
verification: two passwords whose saslprep normalizations agree on their
first 127 bytes yield the same verification outcome and the same candidate
file key. -/
theorem C10_password_truncation :
    ∀ (sha256 : List Nat → List Nat)
      (aes : List Nat → List Nat → List Nat → List Nat)
      (saslprep : List Nat → List Nat) (E : EncR56) (p1 p2 : List Nat),
      (saslprep p1).take 127 = (saslprep p2).take 127 →
      pdf_check_r5_password sha256 aes saslprep E p1 =
        pdf_check_r5_password sha256 aes saslprep E p2 ∧
      pdf_r5_candidate_key sha256 aes saslprep E p1 =
        pdf_r5_candidate_key sha256 aes saslprep E p2 := by
  intro sha256 aes saslprep E p1 p2 h
  have ht : r5_truncate_password saslprep p1 = r5_truncate_password saslprep p2 := by
    rw [r5_truncate_eq_take, r5_truncate_eq_take, h]
  constructor
  · rw [pdf_check_r5_password, pdf_check_r5_password, ht]
  · rw [pdf_r5_candidate_key, pdf_r5_candidate_key, ht]

/-- Witness for C10: two passwords of lengths 128 and 129 agreeing on their
first 127 bytes give identical outcomes and candidate keys at `E6`. -/
theorem C10_password_truncation_witness :
    pdf_check_r5_password sha256c aesid (fun p => p) E6 (List.replicate 127 65 ++ [1]) =
      pdf_check_r5_password sha256c aesid (fun p => p) E6 (List.replicate 127 65 ++ [2, 3]) ∧
    pdf_r5_candidate_key sha256c aesid (fun p => p) E6 (List.replicate 127 65 ++ [1]) =
      pdf_r5_candidate_key sha256c aesid (fun p => p) E6 (List.replicate 127 65 ++ [2, 3]) :=
  C10_password_truncation sha256c aesid (fun p => p) E6
    (List.replicate 127 65 ++ [1]) (List.replicate 127 65 ++ [2, 3]) (by decide)

end PdfSec
